import Mathlib

/-!
Verification development for the SillyRPC plugin (src/index.ts).

The module-level mutable state of the plugin (`config`, `rpcClient`,
`wsClient`) is embedded as an explicit `ManagerState` record; the id counter
`nextId` stands for object identity of the JS client objects so that action
traces can say which handle a destroy/close/send was performed on.  Every
operation of the source (the exported `init` and `exit`, the `/settings`,
`/update` and `/test` route handlers, `sendActivity`, `loadConfig`) becomes a
pure function from `ManagerState` to a new state together with the list of
external `Action`s it performs (transport calls, console logs, config save).
The internals of the two client libraries (discord-rpc, ws) are modelled only
as far as the source observes them: the rpc client's ready flag and the
websocket's `readyState`, both driven by event-delivery functions.
-/

namespace SillyRPC

/-- Config record as destructured from JSON (`Config` in the source): each of
the three fields may be absent (undefined) in a request body, hence `Option`. -/
structure ConfigV where
  clientId : Option String
  mode : Option String
  agentUrl : Option String
deriving DecidableEq

/-- Activity payload as built by the `/update` handler: four fields, each
possibly undefined. -/
structure ActivityPayload where
  details : Option String
  state : Option String
  largeImageKey : Option String
  startTimestamp : Option Int
deriving DecidableEq

/-- Model of a discord-rpc `RPC.Client` as created by `initLocalRpc`:
`ready` records whether the 'ready' event has fired, `destroyed` whether
`destroy()` has been called.  `id` is object identity. -/
structure RpcClient where
  id : Nat
  clientId : Option String
  ready : Bool
  destroyed : Bool
deriving DecidableEq

/-- Model of a `ws` WebSocket as created by `initRemoteWs`. `readyState`
follows the WebSocket numbering: 0 CONNECTING, 1 OPEN, 2 CLOSING, 3 CLOSED. -/
structure WsClient where
  id : Nat
  url : Option String
  readyState : Nat
deriving DecidableEq

/-- Externally observable actions performed by the plugin: console logging at
the three levels used, the config-file save, and the calls made on the two
transport client objects (identified by their `id`). -/
inductive Action where
  | log (msg : String)
  | logWarn (msg : String)
  | logError (msg : String)
  | saveCfg (c : ConfigV)
  | rpcCreate (id : Nat)
  | rpcRegister (clientId : Option String)
  | rpcLogin (id : Nat) (clientId : Option String)
  | rpcSetActivity (id : Nat) (a : ActivityPayload)
  | rpcDestroy (id : Nat)
  | wsCreate (id : Nat) (url : Option String)
  | wsSend (id : Nat) (msg : String)
  | wsClose (id : Nat)
deriving DecidableEq

/-- The plugin's module-level mutable state: `config`, the two nullable client
references, and a fresh-id counter standing for allocation of new client
objects. -/
structure ManagerState where
  config : ConfigV
  rpcClient : Option RpcClient
  wsClient : Option WsClient
  nextId : Nat
deriving DecidableEq

/-- `loadConfig` from the source: the external file read plus `JSON.parse` is
the `Except` argument (any failure of either is `error`); on failure the
zero-value config is returned, on success the parsed contents. -/
def loadConfig : Except Unit ConfigV → ConfigV
  | Except.error _ => ⟨some "", some "local", some ""⟩
  | Except.ok c => c

/-- `initLocalRpc` from the source: allocates a fresh rpc client (not ready,
not destroyed), stores it in `rpcClient`, registers the client id and starts
the asynchronous login.  The previous `wsClient` reference is not touched. -/
def initLocalRpc (clientId : Option String) (s : ManagerState) : ManagerState × List Action :=
  ({ s with rpcClient := some ⟨s.nextId, clientId, false, false⟩, nextId := s.nextId + 1 },
   [Action.rpcCreate s.nextId, Action.rpcRegister clientId, Action.rpcLogin s.nextId clientId])

/-- `initRemoteWs` from the source: allocates a fresh websocket (CONNECTING)
to the given url and stores it in `wsClient`. -/
def initRemoteWs (agentUrl : Option String) (s : ManagerState) : ManagerState × List Action :=
  ({ s with wsClient := some ⟨s.nextId, agentUrl, 0⟩, nextId := s.nextId + 1 },
   [Action.wsCreate s.nextId agentUrl])

/-- The 'ready' handler registered in `initLocalRpc`: `() => console.log(...)`. -/
def rpcReadyHandler (s : ManagerState) : ManagerState × List Action :=
  (s, [Action.log "Local RPC ready"])

/-- The 'error' handler registered in `initLocalRpc`: `err => console.error(...)`. -/
def rpcErrorHandler (s : ManagerState) : ManagerState × List Action :=
  (s, [Action.logError "Local RPC error"])

/-- The 'close' handler registered in `initLocalRpc`: `() => console.warn(...)`. -/
def rpcCloseHandler (s : ManagerState) : ManagerState × List Action :=
  (s, [Action.logWarn "Local RPC transport closed"])

/-- The rejection handler attached to `login(...)` in `initLocalRpc`:
`err => console.error(...)`. -/
def rpcLoginCatchHandler (s : ManagerState) : ManagerState × List Action :=
  (s, [Action.logError "Local RPC login failed"])

/-- The 'open' handler registered in `initRemoteWs`: `() => console.log(...)`. -/
def wsOpenHandler (agentUrl : Option String) (s : ManagerState) : ManagerState × List Action :=
  (s, [Action.log ("Connected to agent at " ++ agentUrl.getD "undefined")])

/-- The 'error' handler registered in `initRemoteWs`: `err => console.error(...)`. -/
def wsErrorHandler (s : ManagerState) : ManagerState × List Action :=
  (s, [Action.logError "WS error"])

/-- The event handlers `initLocalRpc` registers on the rpc client, in
registration order: 'ready', 'error' and 'close'. -/
def localRpcRegisteredHandlers : List (String × (ManagerState → ManagerState × List Action)) :=
  [("ready", rpcReadyHandler), ("error", rpcErrorHandler), ("close", rpcCloseHandler)]

/-- The event handlers `initRemoteWs` registers on the websocket, in
registration order: only 'open' and 'error' — the source registers no 'close'
handler on the websocket. -/
def remoteWsRegisteredHandlers (agentUrl : Option String) :
    List (String × (ManagerState → ManagerState × List Action)) :=
  [("open", wsOpenHandler agentUrl), ("error", wsErrorHandler)]

/-- JSON string escaping for the characters that can require it in these
payloads (quote and backslash), as `JSON.stringify` performs. -/
def jsonEscapeChar (c : Char) : String :=
  if c = '\"' then "\\\"" else if c = '\\' then "\\\\" else String.singleton c

/-- Escape a whole string for JSON output. -/
def jsonEscape (s : String) : String := String.join (s.toList.map jsonEscapeChar)

/-- A JSON string literal. -/
def jsonStr (s : String) : String := "\"" ++ jsonEscape s ++ "\""

/-- Model of `JSON.stringify` on the four-field activity object: fields appear
in literal order, absent (undefined) fields are omitted, string fields are
quoted and escaped, the timestamp is a bare number. -/
def stringifyActivity (a : ActivityPayload) : String :=
  let fs : List String :=
    (match a.details with | some v => ["\"details\":" ++ jsonStr v] | none => []) ++
    (match a.state with | some v => ["\"state\":" ++ jsonStr v] | none => []) ++
    (match a.largeImageKey with | some v => ["\"largeImageKey\":" ++ jsonStr v] | none => []) ++
    (match a.startTimestamp with | some v => ["\"startTimestamp\":" ++ toString v] | none => [])
  "\x7b" ++ String.intercalate "," fs ++ "\x7d"

/-- `sendActivity` from the source.  In local mode the only guard is that
`rpcClient` is non-null (readiness is not checked) and then `setActivity` is
called with the payload; in the other branch the guard is that `wsClient`
exists with `readyState === OPEN` (1) and then the JSON serialization is
written.  The function mutates no manager state; it returns the actions
performed. -/
def sendActivity (activity : ActivityPayload) (s : ManagerState) : List Action :=
  if s.config.mode = some "local" then
    match s.rpcClient with
    | none => [Action.logError "RPC client not initialized"]
    | some c => [Action.rpcSetActivity c.id activity]
  else
    match s.wsClient with
    | none => [Action.logError "WebSocket client not connected"]
    | some w =>
      if w.readyState = 1 then [Action.wsSend w.id (stringifyActivity activity)]
      else [Action.logError "WebSocket client not connected"]

/-- The `if (rpcClient) \x7b rpcClient.destroy(); rpcClient = null; \x7d` step
of the `/settings` handler. -/
def closeRpc (s : ManagerState) : ManagerState × List Action :=
  match s.rpcClient with
  | some c => ({ s with rpcClient := none }, [Action.rpcDestroy c.id])
  | none => (s, [])

/-- The `if (wsClient) \x7b wsClient.close(); wsClient = null; \x7d` step of
the `/settings` handler. -/
def closeWs (s : ManagerState) : ManagerState × List Action :=
  match s.wsClient with
  | some w => ({ s with wsClient := none }, [Action.wsClose w.id])
  | none => (s, [])

/-- The `POST /settings` handler: replaces `config` wholesale with the
destructured body, saves it, destroys and releases any existing rpc client,
closes and releases any existing websocket, then re-initializes the transport
selected by the new mode.  Returns the new state, the action trace in program
order, and the HTTP status (204). -/
def settingsHandler (body : ConfigV) (s : ManagerState) : ManagerState × List Action × Nat :=
  let s1 : ManagerState := { s with config := body }
  let p2 := closeRpc s1
  let p3 := closeWs p2.1
  let p4 :=
    if body.mode = some "local" then initLocalRpc body.clientId p3.1
    else initRemoteWs body.agentUrl p3.1
  (p4.1, Action.saveCfg body :: (p2.2 ++ p3.2 ++ p4.2), 204)

/-- The `POST /update` handler: logs the body, builds the four-field activity
object from it and dispatches it via `sendActivity`, then responds 204.  The
manager state is not changed (`sendActivity` is read-only on it). -/
def updateHandler (details state largeImageKey : Option String) (startTimestamp : Option Int)
    (s : ManagerState) : List Action × Nat :=
  (Action.log "/update payload" ::
     sendActivity ⟨details, state, largeImageKey, startTimestamp⟩ s, 204)

/-- The HTTP response of the `/test` endpoint: `res.json(\x7b success: true,
sent: dummy \x7d)`. -/
structure TestResponse where
  success : Bool
  sent : ActivityPayload
deriving DecidableEq

/-- The dummy payload the `/test` handler builds; `now` is `Date.now()`. -/
def dummyActivity (now : Int) : ActivityPayload :=
  ⟨some "Test Presence", some "Testing RPC", some "test_image", some now⟩

/-- The `POST /test` handler: logs, dispatches the dummy payload via
`sendActivity` (whose outcome is discarded), and unconditionally responds with
`success: true` and the payload. -/
def testHandler (now : Int) (s : ManagerState) : List Action × TestResponse :=
  (Action.log "/test invoked" :: sendActivity (dummyActivity now) s,
   ⟨true, dummyActivity now⟩)

/-- The exported `exit`: destroys the rpc client and closes the websocket if
present, but does not null either reference.  `destroy()` marks the rpc client
destroyed and no longer ready; `close()` moves the socket to CLOSING (2)
unless it is already CLOSED (3). -/
def exitOp (s : ManagerState) : ManagerState × List Action :=
  let p1 : Option RpcClient × List Action :=
    match s.rpcClient with
    | some c => (some { c with ready := false, destroyed := true }, [Action.rpcDestroy c.id])
    | none => (none, [])
  let p2 : Option WsClient × List Action :=
    match s.wsClient with
    | some w => (some { w with readyState := if w.readyState = 3 then 3 else 2 },
                 [Action.wsClose w.id])
    | none => (none, [])
  ({ s with rpcClient := p1.1, wsClient := p2.1 }, p1.2 ++ p2.2)

/-- The transport-initialization part of the exported `init`: starts the
transport selected by the loaded config's mode.  Route registration is HTTP
glue and performs no transport action. -/
def initPlugin (s : ManagerState) : ManagerState × List Action :=
  if s.config.mode = some "local" then initLocalRpc s.config.clientId s
  else initRemoteWs s.config.agentUrl s

/-- The module-level initial state: `config = loadConfig()`, both client
references null; `r` is the outcome of the external read+parse. -/
def startState (r : Except Unit ConfigV) : ManagerState :=
  ⟨loadConfig r, none, none, 0⟩

/-- Delivery of the rpc 'ready' event to the currently held client: the
library marks the client ready, then the registered handler runs (it only
logs). -/
def rpcReadyEvent (s : ManagerState) : ManagerState × List Action :=
  match s.rpcClient with
  | some c => rpcReadyHandler { s with rpcClient := some { c with ready := true } }
  | none => (s, [])

/-- Delivery of the rpc 'error' event: the registered handler runs (logs only). -/
def rpcErrorEvent (s : ManagerState) : ManagerState × List Action :=
  match s.rpcClient with
  | some _ => rpcErrorHandler s
  | none => (s, [])

/-- Delivery of the rpc 'close' event (transport dropped): the client is no
longer ready, and the registered handler logs a warning. -/
def rpcCloseEvent (s : ManagerState) : ManagerState × List Action :=
  match s.rpcClient with
  | some c => rpcCloseHandler { s with rpcClient := some { c with ready := false } }
  | none => (s, [])

/-- Rejection of the rpc `login` promise: the attached catch handler logs. -/
def rpcLoginFailEvent (s : ManagerState) : ManagerState × List Action :=
  match s.rpcClient with
  | some _ => rpcLoginCatchHandler s
  | none => (s, [])

/-- Delivery of the ws 'open' event: the socket reaches OPEN (1), then the
registered handler logs. -/
def wsOpenEvent (s : ManagerState) : ManagerState × List Action :=
  match s.wsClient with
  | some w => wsOpenHandler w.url { s with wsClient := some { w with readyState := 1 } }
  | none => (s, [])

/-- Delivery of the ws 'error' event: the registered handler logs; the
library does not change `readyState` on error alone. -/
def wsErrorEvent (s : ManagerState) : ManagerState × List Action :=
  match s.wsClient with
  | some _ => wsErrorHandler s
  | none => (s, [])

/-- Delivery of the ws 'close' event: the socket reaches CLOSED (3).  The
source registers no handler for it, so nothing is logged and nothing else
happens. -/
def wsCloseEvent (s : ManagerState) : ManagerState × List Action :=
  match s.wsClient with
  | some w => ({ s with wsClient := some { w with readyState := 3 } }, [])
  | none => (s, [])

/-- Reachable manager states: the state after plugin `init` on the loaded
config, closed under the `/settings` handler, `exit`, and delivery of the
transport events.  The `/update` and `/test` handlers do not appear because
they return no new state (`sendActivity` mutates nothing). -/
inductive Reachable : ManagerState → Prop where
  | start (r : Except Unit ConfigV) : Reachable (initPlugin (startState r)).1
  | settings {s : ManagerState} (body : ConfigV) :
      Reachable s → Reachable (settingsHandler body s).1
  | exitStep {s : ManagerState} : Reachable s → Reachable (exitOp s).1
  | rpcReady {s : ManagerState} : Reachable s → Reachable (rpcReadyEvent s).1
  | rpcErr {s : ManagerState} : Reachable s → Reachable (rpcErrorEvent s).1
  | rpcClosed {s : ManagerState} : Reachable s → Reachable (rpcCloseEvent s).1
  | rpcLoginFail {s : ManagerState} : Reachable s → Reachable (rpcLoginFailEvent s).1
  | wsOpened {s : ManagerState} : Reachable s → Reachable (wsOpenEvent s).1
  | wsErr {s : ManagerState} : Reachable s → Reachable (wsErrorEvent s).1
  | wsClosed {s : ManagerState} : Reachable s → Reachable (wsCloseEvent s).1

/-- An action is a console log (any level). -/
def Action.isLog : Action → Bool
  | Action.log _ => true
  | Action.logWarn _ => true
  | Action.logError _ => true
  | _ => false

/-- An action is an attempted send on a transport (`setActivity` or
`ws.send`). -/
def Action.isSend : Action → Bool
  | Action.rpcSetActivity _ _ => true
  | Action.wsSend _ _ => true
  | _ => false

/-- An action creates a new transport client. -/
def Action.isCreate : Action → Bool
  | Action.rpcCreate _ => true
  | Action.wsCreate _ _ => true
  | _ => false

/-- Some held handle is Ready: the rpc client has seen 'ready', or the
websocket is OPEN. -/
def hasReadyHandle (s : ManagerState) : Bool :=
  (match s.rpcClient with | some c => c.ready | none => false) ||
  (match s.wsClient with | some w => w.readyState = 1 | none => false)

/-- At most one transport reference is live. -/
def oneLive (s : ManagerState) : Prop :=
  s.rpcClient = none ∨ s.wsClient = none

/-- The action `a` occurs in `acts` with no transport-creation action
anywhere before it. -/
def occursBeforeAnyCreate (a : Action) (acts : List Action) : Prop :=
  ∃ l1 l2, acts = l1 ++ a :: l2 ∧ ∀ x ∈ l1, Action.isCreate x = false

/-- A configured local state whose rpc client exists but has not yet reached
Ready: exactly the state right after `init` with a local config, while the
asynchronous login is still pending. -/
def localUnreadyState : ManagerState :=
  (initPlugin (startState (Except.ok ⟨some "abc", some "local", some ""⟩))).1

/-- A sample payload. -/
def samplePayload : ActivityPayload :=
  ⟨some "D", some "S", some "K", some 1700000000000⟩

/-- C9: for every failure of the config file read or parse, `loadConfig`
returns exactly the zero-value configuration (empty clientId, mode local,
empty agentUrl) and does not throw (it is a total function); on success it
returns the parsed file contents unchanged. -/
theorem loadConfig_fallback (r : Except Unit ConfigV) :
    (∀ e, r = Except.error e → loadConfig r = ⟨some "", some "local", some ""⟩) ∧
    (∀ c, r = Except.ok c → loadConfig r = c) := by
  constructor
  · rintro e rfl; rfl
  · rintro c rfl; rfl

/-- Witness for C9: `loadConfig` at a concrete failed read yields the
zero-value config. -/
theorem loadConfig_fallback_witness :
    loadConfig (Except.error ()) = ⟨some "", some "local", some ""⟩ :=
  (loadConfig_fallback (Except.error ())).1 () rfl

/-- C10: the `/test` endpoint always responds with success true and the dummy
payload, for every manager state — the response does not depend on the state
at all, so a failed or skipped send inside `sendActivity` (which only logs)
is never reflected in the response. -/
theorem test_response_unconditional (s u : ManagerState) (now : Int) :
    (testHandler now s).2 = ⟨true, ⟨some "Test Presence", some "Testing RPC",
      some "test_image", some now⟩⟩ ∧
    (testHandler now s).2 = (testHandler now u).2 := by
  exact ⟨rfl, rfl⟩

/-- C5: in remote mode, dispatch before the socket's open event (no `wsClient`
or `readyState` not OPEN) only logs the not-connected error and performs no
network write. -/
theorem sendActivity_remote_not_open (a : ActivityPayload) (s : ManagerState)
    (hm : s.config.mode = some "remote")
    (hw : ∀ w, s.wsClient = some w → ¬ w.readyState = 1) :
    sendActivity a s = [Action.logError "WebSocket client not connected"] ∧
    (sendActivity a s).any Action.isSend = false := by
  have hnl : ¬ s.config.mode = some "local" := by simp [hm]
  have h1 : sendActivity a s = [Action.logError "WebSocket client not connected"] := by
    unfold sendActivity
    rw [if_neg hnl]
    cases h : s.wsClient with
    | none => rfl
    | some w => simp [hw w h]
  exact ⟨h1, by rw [h1]; rfl⟩

/-- Witness for C5: a concrete remote-mode state with a CONNECTING socket
yields only the not-connected log. -/
theorem sendActivity_remote_not_open_witness :
    sendActivity samplePayload
        ⟨⟨some "", some "remote", some "ws://agent"⟩, none, some ⟨0, some "ws://agent", 0⟩, 1⟩ =
      [Action.logError "WebSocket client not connected"] ∧
    (sendActivity samplePayload
        ⟨⟨some "", some "remote", some "ws://agent"⟩, none, some ⟨0, some "ws://agent", 0⟩, 1⟩).any
        Action.isSend = false :=
  sendActivity_remote_not_open samplePayload
    ⟨⟨some "", some "remote", some "ws://agent"⟩, none, some ⟨0, some "ws://agent", 0⟩, 1⟩
    rfl (by intro w hw; cases hw; decide)

/-- C1 counterexample: in local mode, `sendActivity` checks only that
`rpcClient` is non-null, not that it is Ready.  In the reachable state right
after a local-mode `init` (login still pending, no handle Ready),
`sendActivity` does not return NotConnected: it calls `setActivity` on the
not-yet-Ready client. -/
theorem sendActivity_local_unready_sends :
    hasReadyHandle localUnreadyState = false ∧
    Reachable localUnreadyState ∧
    sendActivity samplePayload localUnreadyState =
      [Action.rpcSetActivity 0 samplePayload] :=
  ⟨by decide, Reachable.start (Except.ok ⟨some "abc", some "local", some ""⟩), by decide⟩

/-- C1 amended: when no transport handle is present — local mode: `rpcClient`
null; remote mode: `wsClient` null or not OPEN — `sendActivity` only logs an
error (the NotConnected outcome), attempts no send on any transport, and never
throws.  (In local mode readiness is not checked: a non-null client that has
not reached Ready still receives `setActivity`; see the counterexample.) -/
theorem sendActivity_disconnected_no_send (a : ActivityPayload) (s : ManagerState)
    (hloc : s.config.mode = some "local" → s.rpcClient = none)
    (hrem : ¬ s.config.mode = some "local" →
      ∀ w, s.wsClient = some w → ¬ w.readyState = 1) :
    (sendActivity a s).all Action.isLog = true ∧
    (sendActivity a s).any Action.isSend = false := by
  unfold sendActivity
  by_cases h : s.config.mode = some "local"
  · rw [if_pos h, hloc h]
    exact ⟨rfl, rfl⟩
  · rw [if_neg h]
    cases hw : s.wsClient with
    | none => exact ⟨rfl, rfl⟩
    | some w => simp [hrem h w hw, Action.isLog, Action.isSend]

/-- Witness for C1's amended theorem: at a concrete local-mode state with a
null rpc client, dispatch only logs and sends nothing. -/
theorem sendActivity_disconnected_no_send_witness :
    (sendActivity samplePayload ⟨⟨some "", some "local", some ""⟩, none, none, 0⟩).all
        Action.isLog = true ∧
    (sendActivity samplePayload ⟨⟨some "", some "local", some ""⟩, none, none, 0⟩).any
        Action.isSend = false :=
  sendActivity_disconnected_no_send samplePayload
    ⟨⟨some "", some "local", some ""⟩, none, none, 0⟩
    (fun _ => rfl) (fun h => absurd rfl h)

/-- The initial `init` establishes the single-handle invariant: it creates one
client into a state where both references are null. -/
theorem oneLive_start (r : Except Unit ConfigV) : oneLive (initPlugin (startState r)).1 := by
  unfold oneLive initPlugin
  split
  · right; rfl
  · left; rfl

/-- The `/settings` handler always leaves exactly one non-null reference:
it nulls both before re-initializing one. -/
theorem oneLive_settings (body : ConfigV) (s : ManagerState) :
    oneLive (settingsHandler body s).1 := by
  unfold oneLive settingsHandler closeRpc closeWs initLocalRpc initRemoteWs
  cases hr : s.rpcClient <;> cases hw : s.wsClient <;>
    by_cases hm : body.mode = some "local" <;>
    simp [hr, hw, hm]

/-- `exit` preserves the single-handle invariant (it nulls nothing but also
creates nothing). -/
theorem oneLive_exitOp {s : ManagerState} (h : oneLive s) : oneLive (exitOp s).1 := by
  rcases h with h1 | h1
  · left; unfold exitOp; simp [h1]
  · right; unfold exitOp; simp [h1]

/-- Rpc 'ready' delivery preserves the single-handle invariant. -/
theorem oneLive_rpcReadyEvent {s : ManagerState} (h : oneLive s) :
    oneLive (rpcReadyEvent s).1 := by
  unfold rpcReadyEvent
  cases hr : s.rpcClient with
  | none => exact h
  | some c =>
    rcases h with h1 | h1
    · rw [hr] at h1; cases h1
    · exact Or.inr h1

/-- Rpc 'error' delivery preserves the single-handle invariant. -/
theorem oneLive_rpcErrorEvent {s : ManagerState} (h : oneLive s) :
    oneLive (rpcErrorEvent s).1 := by
  unfold rpcErrorEvent
  cases hr : s.rpcClient <;> exact h

/-- Rpc 'close' delivery preserves the single-handle invariant. -/
theorem oneLive_rpcCloseEvent {s : ManagerState} (h : oneLive s) :
    oneLive (rpcCloseEvent s).1 := by
  unfold rpcCloseEvent
  cases hr : s.rpcClient with
  | none => exact h
  | some c =>
    rcases h with h1 | h1
    · rw [hr] at h1; cases h1
    · exact Or.inr h1

/-- Rpc login rejection preserves the single-handle invariant. -/
theorem oneLive_rpcLoginFailEvent {s : ManagerState} (h : oneLive s) :
    oneLive (rpcLoginFailEvent s).1 := by
  unfold rpcLoginFailEvent
  cases hr : s.rpcClient <;> exact h

/-- Ws 'open' delivery preserves the single-handle invariant. -/
theorem oneLive_wsOpenEvent {s : ManagerState} (h : oneLive s) :
    oneLive (wsOpenEvent s).1 := by
  unfold wsOpenEvent
  cases hw : s.wsClient with
  | none => exact h
  | some w =>
    rcases h with h1 | h1
    · exact Or.inl h1
    · rw [hw] at h1; cases h1

/-- Ws 'error' delivery preserves the single-handle invariant. -/
theorem oneLive_wsErrorEvent {s : ManagerState} (h : oneLive s) :
    oneLive (wsErrorEvent s).1 := by
  unfold wsErrorEvent
  cases hw : s.wsClient <;> exact h

/-- Ws 'close' delivery preserves the single-handle invariant. -/
theorem oneLive_wsCloseEvent {s : ManagerState} (h : oneLive s) :
    oneLive (wsCloseEvent s).1 := by
  unfold wsCloseEvent
  cases hw : s.wsClient with
  | none => exact h
  | some w =>
    rcases h with h1 | h1
    · exact Or.inl h1
    · rw [hw] at h1; cases h1

/-- C2: at every reachable program state at most one transport reference is
live — `rpcClient` and `wsClient` are never both non-null — and every
operation (plugin init, the `/settings` handler, `exit`, event deliveries;
`sendActivity` and the `/update` and `/test` handlers do not touch the state
at all) preserves this. -/
theorem reachable_at_most_one_handle (s : ManagerState) (h : Reachable s) :
    s.rpcClient = none ∨ s.wsClient = none := by
  induction h with
  | start r => exact oneLive_start r
  | settings body _ ih => exact oneLive_settings body _
  | exitStep _ ih => exact oneLive_exitOp ih
  | rpcReady _ ih => exact oneLive_rpcReadyEvent ih
  | rpcErr _ ih => exact oneLive_rpcErrorEvent ih
  | rpcClosed _ ih => exact oneLive_rpcCloseEvent ih
  | rpcLoginFail _ ih => exact oneLive_rpcLoginFailEvent ih
  | wsOpened _ ih => exact oneLive_wsOpenEvent ih
  | wsErr _ ih => exact oneLive_wsErrorEvent ih
  | wsClosed _ ih => exact oneLive_wsCloseEvent ih

/-- Witness for C2: the invariant at the concrete reachable state after a
local-mode init. -/
theorem reachable_at_most_one_handle_witness :
    localUnreadyState.rpcClient = none ∨ localUnreadyState.wsClient = none :=
  reachable_at_most_one_handle localUnreadyState
    (Reachable.start (Except.ok ⟨some "abc", some "local", some ""⟩))

/-- C7 counterexample: `exit` does not release the handle.  In the concrete
state after a local-mode init, calling `exit` leaves `rpcClient` non-null
(the destroyed client is still held), so "no active handle is held" fails. -/
theorem exit_keeps_reference :
    ¬ (exitOp localUnreadyState).1.rpcClient = none := by decide

/-- C7 amended: calling `exit` twice in succession produces the same manager
state as calling it once, and the second call repeats exactly the same
destroy/close actions (it is not a silent no-op, but it changes nothing);
held handles are destroyed/closed, never released — the references keep the
nullness they had.  Both calls are total functions: closing an
already-closed or absent handle cannot throw. -/
theorem exit_idempotent (s : ManagerState) :
    (exitOp (exitOp s).1).1 = (exitOp s).1 ∧
    (exitOp (exitOp s).1).2 = (exitOp s).2 ∧
    (exitOp s).1.rpcClient.isSome = s.rpcClient.isSome ∧
    (exitOp s).1.wsClient.isSome = s.wsClient.isSome := by
  unfold exitOp
  cases hr : s.rpcClient <;> cases hw : s.wsClient <;> simp [hr, hw]

/-- C3: reconfiguring closes the previous handle exactly once, and does so
before the new transport object is created; the resulting state holds exactly
the one handle built from the new config (the other reference is null); and
every handler registered on the abandoned handle leaves the manager state
unchanged (each only logs), so its late events never mutate
config/rpcClient/wsClient. -/
theorem settings_swap_safety (s : ManagerState) (body : ConfigV) :
    (∀ c, s.rpcClient = some c → s.wsClient = none →
      (settingsHandler body s).2.1.count (Action.rpcDestroy c.id) = 1 ∧
      occursBeforeAnyCreate (Action.rpcDestroy c.id) (settingsHandler body s).2.1) ∧
    (∀ w, s.wsClient = some w → s.rpcClient = none →
      (settingsHandler body s).2.1.count (Action.wsClose w.id) = 1 ∧
      occursBeforeAnyCreate (Action.wsClose w.id) (settingsHandler body s).2.1) ∧
    ((body.mode = some "local" →
       (settingsHandler body s).1.rpcClient = some ⟨s.nextId, body.clientId, false, false⟩ ∧
       (settingsHandler body s).1.wsClient = none) ∧
     (¬ body.mode = some "local" →
       (settingsHandler body s).1.wsClient = some ⟨s.nextId, body.agentUrl, 0⟩ ∧
       (settingsHandler body s).1.rpcClient = none)) ∧
    (∀ t, (rpcReadyHandler t).1 = t ∧ (rpcErrorHandler t).1 = t ∧
      (rpcCloseHandler t).1 = t ∧ (rpcLoginCatchHandler t).1 = t ∧
      (wsOpenHandler body.agentUrl t).1 = t ∧ (wsErrorHandler t).1 = t) := by
  refine ⟨?_, ?_, ⟨?_, ?_⟩, fun t => ⟨rfl, rfl, rfl, rfl, rfl, rfl⟩⟩
  · intro c hc hw
    by_cases hm : body.mode = some "local"
    · have ht : (settingsHandler body s).2.1 =
          [Action.saveCfg body, Action.rpcDestroy c.id, Action.rpcCreate s.nextId,
           Action.rpcRegister body.clientId, Action.rpcLogin s.nextId body.clientId] := by
        unfold settingsHandler closeRpc closeWs initLocalRpc
        simp [hc, hw, hm]
      rw [ht]
      refine ⟨by simp [List.count_cons], ?_⟩
      refine ⟨[Action.saveCfg body],
        [Action.rpcCreate s.nextId, Action.rpcRegister body.clientId,
         Action.rpcLogin s.nextId body.clientId], rfl, ?_⟩
      intro x hx
      rw [List.mem_singleton] at hx
      subst hx
      rfl
    · have ht : (settingsHandler body s).2.1 =
          [Action.saveCfg body, Action.rpcDestroy c.id, Action.wsCreate s.nextId body.agentUrl] := by
        unfold settingsHandler closeRpc closeWs initRemoteWs
        simp [hc, hw, hm]
      rw [ht]
      refine ⟨by simp [List.count_cons], ?_⟩
      refine ⟨[Action.saveCfg body], [Action.wsCreate s.nextId body.agentUrl], rfl, ?_⟩
      intro x hx
      rw [List.mem_singleton] at hx
      subst hx
      rfl
  · intro w hw hr
    by_cases hm : body.mode = some "local"
    · have ht : (settingsHandler body s).2.1 =
          [Action.saveCfg body, Action.wsClose w.id, Action.rpcCreate s.nextId,
           Action.rpcRegister body.clientId, Action.rpcLogin s.nextId body.clientId] := by
        unfold settingsHandler closeRpc closeWs initLocalRpc
        simp [hw, hr, hm]
      rw [ht]
      refine ⟨by simp [List.count_cons], ?_⟩
      refine ⟨[Action.saveCfg body],
        [Action.rpcCreate s.nextId, Action.rpcRegister body.clientId,
         Action.rpcLogin s.nextId body.clientId], rfl, ?_⟩
      intro x hx
      rw [List.mem_singleton] at hx
      subst hx
      rfl
    · have ht : (settingsHandler body s).2.1 =
          [Action.saveCfg body, Action.wsClose w.id, Action.wsCreate s.nextId body.agentUrl] := by
        unfold settingsHandler closeRpc closeWs initRemoteWs
        simp [hw, hr, hm]
      rw [ht]
      refine ⟨by simp [List.count_cons], ?_⟩
      refine ⟨[Action.saveCfg body], [Action.wsCreate s.nextId body.agentUrl], rfl, ?_⟩
      intro x hx
      rw [List.mem_singleton] at hx
      subst hx
      rfl
  · intro hm
    unfold settingsHandler closeRpc closeWs initLocalRpc
    cases hr : s.rpcClient <;> cases hw : s.wsClient <;> simp [hr, hw, hm]
  · intro hm
    unfold settingsHandler closeRpc closeWs initRemoteWs
    cases hr : s.rpcClient <;> cases hw : s.wsClient <;> simp [hr, hw, hm]

/-- Witness for C3: swapping a Ready local handle (id 0) for a remote config
destroys the old handle exactly once, before the new socket is created. -/
theorem settings_swap_safety_witness :
    (settingsHandler ⟨some "", some "remote", some "ws://agent"⟩
        ⟨⟨some "abc", some "local", some ""⟩, some ⟨0, some "abc", true, false⟩,
         none, 1⟩).2.1.count (Action.rpcDestroy 0) = 1 ∧
    occursBeforeAnyCreate (Action.rpcDestroy 0)
      (settingsHandler ⟨some "", some "remote", some "ws://agent"⟩
        ⟨⟨some "abc", some "local", some ""⟩, some ⟨0, some "abc", true, false⟩,
         none, 1⟩).2.1 :=
  (settings_swap_safety
    ⟨⟨some "abc", some "local", some ""⟩, some ⟨0, some "abc", true, false⟩, none, 1⟩
    ⟨some "", some "remote", some "ws://agent"⟩).1
    ⟨0, some "abc", true, false⟩ rfl rfl

/-- C4: a payload dispatched through the `/update` handler while the active
transport is Ready reaches the transport's send path with all four fields
unmodified: in local mode the exact four-field object is passed to
`setActivity`, in remote mode its JSON serialization is written. -/
theorem update_roundtrip (s : ManagerState) (d st k : Option String) (t : Option Int) :
    (s.config.mode = some "local" →
      ∀ c, s.rpcClient = some c → c.ready = true →
        (updateHandler d st k t s).1 =
          [Action.log "/update payload", Action.rpcSetActivity c.id ⟨d, st, k, t⟩]) ∧
    (¬ s.config.mode = some "local" →
      ∀ w, s.wsClient = some w → w.readyState = 1 →
        (updateHandler d st k t s).1 =
          [Action.log "/update payload",
           Action.wsSend w.id (stringifyActivity ⟨d, st, k, t⟩)]) := by
  constructor
  · intro hm c hc _
    unfold updateHandler sendActivity
    simp [hm, hc]
  · intro hm w hw h1
    unfold updateHandler sendActivity
    simp [hm, hw, h1]

/-- Witness for C4: a concrete Ready local state receives the exact four-field
object. -/
theorem update_roundtrip_witness :
    (updateHandler (some "D") (some "S") (some "K") (some 1700000000000)
        ⟨⟨some "abc", some "local", some ""⟩, some ⟨0, some "abc", true, false⟩,
         none, 1⟩).1 =
      [Action.log "/update payload",
       Action.rpcSetActivity 0 ⟨some "D", some "S", some "K", some 1700000000000⟩] :=
  (update_roundtrip
    ⟨⟨some "abc", some "local", some ""⟩, some ⟨0, some "abc", true, false⟩, none, 1⟩
    (some "D") (some "S") (some "K") (some 1700000000000)).1
    rfl ⟨0, some "abc", true, false⟩ rfl rfl

/-- C6 counterexample: the remote variant registers handlers only for 'open'
and 'error' — there is no 'close' handler — so a connection drop after Ready
that emits only a close event is not logged for the websocket transport,
contradicting "for both transport variants ... is logged". -/
theorem remote_drop_not_logged :
    (remoteWsRegisteredHandlers (some "ws://agent")).map Prod.fst = ["open", "error"] ∧
    ¬ "close" ∈ (remoteWsRegisteredHandlers (some "ws://agent")).map Prod.fst := by
  refine ⟨rfl, ?_⟩
  intro h
  simp [remoteWsRegisteredHandlers] at h

/-- C6 amended: the local variant registers a 'close' handler that logs a
connection drop after Ready; the remote variant registers only 'open' and
'error' handlers, so a drop is logged only when it also emits an error event.
Neither variant's handlers perform any reconnection: every registered handler
returns the manager state unchanged and only logs, and delivery of the
unhandled ws close event changes no reference and allocates no new client. -/
theorem transport_drop_handlers (s : ManagerState) (url : Option String) :
    localRpcRegisteredHandlers.map Prod.fst = ["ready", "error", "close"] ∧
    (remoteWsRegisteredHandlers url).map Prod.fst = ["open", "error"] ∧
    rpcCloseHandler s = (s, [Action.logWarn "Local RPC transport closed"]) ∧
    rpcReadyHandler s = (s, [Action.log "Local RPC ready"]) ∧
    rpcErrorHandler s = (s, [Action.logError "Local RPC error"]) ∧
    wsOpenHandler url s = (s, [Action.log ("Connected to agent at " ++ url.getD "undefined")]) ∧
    wsErrorHandler s = (s, [Action.logError "WS error"]) ∧
    (wsCloseEvent s).2 = [] ∧
    (wsCloseEvent s).1.rpcClient = s.rpcClient ∧
    (wsCloseEvent s).1.nextId = s.nextId := by
  refine ⟨rfl, rfl, rfl, rfl, rfl, rfl, rfl, ?_, ?_, ?_⟩ <;>
    (unfold wsCloseEvent; cases hw : s.wsClient <;> rfl)

/-- C8: the `/settings` handler replaces the config wholesale — all three
fields are taken from the request body, even if absent there — and there is
no rollback: the events of a failed connection attempt (ws error, ws close,
rpc login rejection) change no manager reference, restore nothing and create
nothing, and once the only handle's socket has closed the system has no Ready
transport until another configuration update. -/
theorem settings_replace_no_rollback (s t : ManagerState) (body : ConfigV) :
    (settingsHandler body s).1.config = body ∧
    (wsErrorEvent t).1 = t ∧
    (rpcLoginFailEvent t).1 = t ∧
    ((wsCloseEvent t).1.config = t.config ∧
     (wsCloseEvent t).1.rpcClient = t.rpcClient ∧
     (wsCloseEvent t).1.nextId = t.nextId ∧
     ((wsCloseEvent t).1.wsClient).isSome = t.wsClient.isSome) ∧
    (t.rpcClient = none → hasReadyHandle (wsCloseEvent t).1 = false) := by
  refine ⟨?_, ?_, ?_, ⟨?_, ?_, ?_, ?_⟩, ?_⟩
  · unfold settingsHandler closeRpc closeWs initLocalRpc initRemoteWs
    cases hr : s.rpcClient <;> cases hw : s.wsClient <;>
      by_cases hm : body.mode = some "local" <;> simp [hr, hw, hm]
  · unfold wsErrorEvent
    cases hw : t.wsClient <;> rfl
  · unfold rpcLoginFailEvent
    cases hr : t.rpcClient <;> rfl
  · unfold wsCloseEvent
    cases hw : t.wsClient <;> rfl
  · unfold wsCloseEvent
    cases hw : t.wsClient <;> rfl
  · unfold wsCloseEvent
    cases hw : t.wsClient <;> rfl
  · unfold wsCloseEvent
    cases hw : t.wsClient <;> simp [hw]
  · intro h
    unfold wsCloseEvent hasReadyHandle
    cases hw : t.wsClient <;> simp [h, hw]

/-- Witness for C8: after the only (remote) handle's socket closes, no handle
is Ready. -/
theorem settings_replace_no_rollback_witness :
    hasReadyHandle (wsCloseEvent ⟨⟨some "", some "remote", some "u"⟩, none,
      some ⟨0, some "u", 1⟩, 1⟩).1 = false :=
  (settings_replace_no_rollback ⟨⟨some "", some "local", some ""⟩, none, none, 0⟩
    ⟨⟨some "", some "remote", some "u"⟩, none, some ⟨0, some "u", 1⟩, 1⟩
    ⟨some "", some "remote", some "u"⟩).2.2.2.2 rfl

end SillyRPC
